import Mathlib

/-!
Shallow embedding of the Arbitrum client-side protocol layer
(`arb-provider-ethers`): the result-verification pipeline of
`ArbProvider` (provider.ts, `src/unnamed/part_000`) and the sequencing /
dual-path submission protocol of `ArbWallet` (wallet.ts).

Modelling conventions:
- 32-byte hashes, addresses, signatures and calldata are hex `String`s,
  exactly as the source handles them (`ethers` hex strings).
- The opaque cryptographic collaborators (`Hashing.calculateTransactionHash`,
  `solidityKeccak256` over two `bytes32`, `ArbValue.Value.hash`, the value
  codec `Result.fromValue`) are abstract function fields of an environment
  record: the source treats them as black boxes.
- Asynchronous RPC collaborators (base-chain receipts, the validator
  endpoint, `waitForTransaction`) are modelled as functions in the same
  environment record; fallible code returns `Except`.
- JavaScript truthiness checks on numbers (`!this.seqCache`,
  `if (blockTag)`, `if (!gasLimit)`) are modelled explicitly: `0`, the
  empty string and `undefined` are falsy.
-/

set_option autoImplicit false

namespace ArbSdk

/-! ### Event-name and address constants (provider.ts lines 48-56) -/

def EB_EVENT_CDA : String := "RollupAsserted"

def TransactionMessageDelivered : String := "TransactionMessageDelivered"

def EthDepositMessageDelivered : String := "EthDepositMessageDelivered"

def ERC20DepositMessageDelivered : String := "ERC20DepositMessageDelivered"

def ERC721DepositMessageDelivered : String := "ERC721DepositMessageDelivered"

def ARB_SYS_ADDRESS : String := "0x0000000000000000000000000000000000000064"

def ARB_INFO_ADDRESS : String := "0x0000000000000000000000000000000000000065"

/-! ### Hex-string helpers (`ethers.utils` v4 semantics) -/

/-- `BigNumber.toHexString()`: `"0x"` followed by the minimal lower-case
hex digits of the number (`"0x0"` for zero). -/
def toHexString (n : Nat) : String :=
  "0x" ++ String.mk (Nat.toDigits 16 n)

/-- `ethers.utils.hexZeroPad(value, len)` (v4): insert `'0'` characters
after the `"0x"` prefix until the string is `2*len + 2` characters long;
a string already at least that long is returned unchanged. -/
def hexZeroPad (value : String) (len : Nat) : String :=
  if value.length < 2 * len + 2 then
    "0x" ++ String.mk (List.replicate (2 * len + 2 - value.length) '0') ++ value.drop 2
  else value

/-! ### Data model -/

/-- Modelled from the spec: `message.ts` is not among the sources.  The
spec's MessageResult carries an "execution outcome code (success /
reverted / out-of-gas / other terminal code)"; `ResultCode.Return` is the
success code the source compares against. -/
inductive ResultCode where
  | Return
  | Revert
  | OutOfGas
  | Other
deriving DecidableEq

/-- Modelled from the spec: `message.ts` is not among the sources.  The
originating message envelope of a result: "(sender, destination,
sequence number, payload, value)" plus the base-chain-visible block
number used by the facade. -/
structure IncomingMessage where
  sender : String
  destAddress : String
  sequenceNum : Nat
  payment : Nat
  calldata : String
  blockNumber : Nat
deriving DecidableEq

/-- Modelled from the spec: `message.ts` is not among the sources.  The
decoded outcome of executing one rollup message: outcome code, ordered
logs, return data, and the originating envelope. -/
structure Result where
  resultCode : ResultCode
  logs : List String
  returnData : String
  incoming : IncomingMessage
deriving DecidableEq

/-- `AVMProof` (client.ts interface): `logPreHash`, ordered sibling log
hashes `logValHashes`, claimed final accumulator `logPostHash`. -/
structure AVMProof where
  logPreHash : String
  logValHashes : List String
  logPostHash : String
deriving DecidableEq

/-- `NodeInfo` (client.ts interface): the rollup assertion that produced
a result.  `l1TxHash` is absent while the node is not yet asserted
on-chain; `l1Confirmations` is filled in only after verification. -/
structure NodeInfo where
  nodeHash : String
  nodeHeight : Nat
  l1TxHash : Option String
  l1Confirmations : Option Nat
deriving DecidableEq

/-- The raw answer of the validator's `getMessageResult` RPC
(`PossibleMessageResult` without the pre-decoded `result` field, which
the source recomputes via `Result.fromValue`): the serialized value is
kept opaque as a string. -/
structure RawResult where
  val : String
  nodeInfo : NodeInfo
  proof : Option AVMProof
deriving DecidableEq

/-- One log of a base-chain receipt as decoded by
`globalInbox.interface.parseLog`: the event name plus every value field
any of the four delivery events can carry (`log.values.to`,
`log.values.from`, `log.values.seqNumber`, `log.values.value`,
`log.values.data`, `log.values.messageNum`).  `parseLog` returning null
for a foreign log is modelled by `Option` at the use site. -/
structure ParsedInboxLog where
  name : String
  toAddr : String
  fromAddr : String
  seqNumber : Nat
  value : Nat
  data : String
  messageNum : Nat
deriving DecidableEq

/-- A base-chain transaction receipt as `getArbTxId` consumes it: the
(possibly absent) log array, each entry being `parseLog`'s output. -/
structure InboxReceipt where
  logs : Option (List (Option ParsedInboxLog))
deriving DecidableEq

/-- One log of the assertion transaction's receipt, carrying both the
raw log's source `address` and the event decoded by
`arbRollup.interface.parseLog` (its `name` and its `values.fields`
array, modelled as a total index function). -/
structure RollupLog where
  address : String
  name : String
  fields : Nat → String

/-- The mined receipt returned by `waitForTransaction` for the
assertion transaction, with its base-chain confirmation depth. -/
structure RollupReceipt where
  logs : Option (List RollupLog)
  confirmations : Nat

/-- `L2Call` constructor arguments (message.ts is not among the
sources); the source merely forwards the four awaited request fields. -/
structure L2Call where
  gasLimit : Option Nat
  gasPrice : Option Nat
  toAddr : Option String
  data : Option String
deriving DecidableEq

/-- Modelled from the spec: `message.ts` is not among the sources.  An
`L2Transaction` is built as
`new L2Transaction(gasLimit, gasPrice, seq, to, value, data)`. -/
structure L2Transaction where
  gasLimit : Nat
  gasPrice : Nat
  sequenceNum : Nat
  destAddress : String
  payment : Nat
  calldata : String
deriving DecidableEq

/-- The environment of an `ArbProvider` instance: its resolved rollup
chain (`vmId`, cached), the opaque hashing/codec collaborators, and the
RPC surfaces it consults.  Function fields model the awaited calls. -/
structure ProviderEnv where
  /-- `this.getVmID()` / `chainAddress()`: the rollup chain address. -/
  vmId : String
  /-- `Hashing.calculateTransactionHash(chain, to, from, seqNumber, value,
  data)` — the spec's HashIdentity message-id function, opaque keccak. -/
  calculateTransactionHash : String → String → String → Nat → Nat → String → String
  /-- `ethers.utils.solidityKeccak256(['bytes32','bytes32'], [a, b])`. -/
  keccak2 : String → String → String
  /-- `ArbValue.Value.hash()` on the opaque serialized value. -/
  valueHash : String → String
  /-- `Result.fromValue` — the opaque value codec's decode step. -/
  fromValue : String → Result
  /-- `this.ethProvider.getTransactionReceipt(txHash)`. -/
  ethGetTransactionReceipt : String → Option InboxReceipt
  /-- `this.client.getMessageResult(arbTxHash)` (validator RPC). -/
  clientGetMessageResult : String → Option RawResult
  /-- `this.ethProvider.waitForTransaction(l1TxHash)` — the mined receipt. -/
  waitForTransaction : String → RollupReceipt
  /-- `arbInfo.getCode(address)` — the rollup system-info surface. -/
  arbInfoGetCode : String → String
  /-- `this.client.call(tx, from)` (returns an opaque serialized value). -/
  clientCall : L2Call → Option String → String
  /-- `this.client.pendingCall(tx, from)`. -/
  clientPendingCall : L2Call → Option String → String
  /-- The `deterministicAssertions` constructor flag. -/
  deterministicAssertions : Bool

/-- Modelled from the spec: `message.ts` is not among the sources.  The
spec fixes one message-id function — HashIdentity over "(chain id,
destination, sender, sequence number, value, payload)" — and
`result.incoming.messageID()` recomputes it from the envelope. -/
def IncomingMessage.messageID (E : ProviderEnv) (m : IncomingMessage) : String :=
  E.calculateTransactionHash E.vmId m.destAddress m.sender m.sequenceNum m.payment m.calldata

/-- Modelled from the spec: `message.ts` is not among the sources.  The
locally computed rollup-native id of an outgoing `L2Transaction`
(`l2tx.messageID(from)`), the same HashIdentity message-id function the
chain later reports through the delivery event. -/
def L2Transaction.messageID (E : ProviderEnv) (tx : L2Transaction) (sender : String) : String :=
  E.calculateTransactionHash E.vmId tx.destAddress sender tx.sequenceNum tx.payment tx.calldata

/-! ### `ArbProvider.getArbTxId` (provider.ts lines 166-201) -/

/-- The in-order scan of `getArbTxId` over the parsed receipt logs: the
first `TransactionMessageDelivered` event yields
`Hashing.calculateTransactionHash(vmId, to, from, seqNumber, value,
data)`; the first deposit-delivery event (ETH / ERC-20 / ERC-721) yields
`hexZeroPad(messageNum.toHexString(), 32)`; null parses and other
events are skipped. -/
def scanInboxLogs (E : ProviderEnv) : List (Option ParsedInboxLog) → Option String
  | [] => none
  | none :: rest => scanInboxLogs E rest
  | some l :: rest =>
    if l.name = TransactionMessageDelivered then
      some (E.calculateTransactionHash E.vmId l.toAddr l.fromAddr l.seqNumber l.value l.data)
    else if l.name = EthDepositMessageDelivered ∨ l.name = ERC20DepositMessageDelivered
        ∨ l.name = ERC721DepositMessageDelivered then
      some (hexZeroPad (toHexString l.messageNum) 32)
    else scanInboxLogs E rest

/-- `ArbProvider.getArbTxId`: re-derive the rollup message id from a
base-chain receipt's delivery event, or `none` when the receipt has no
logs or none of the four delivery events. -/
def getArbTxId (E : ProviderEnv) (ethReceipt : InboxReceipt) : Option String :=
  match ethReceipt.logs with
  | none => none
  | some logs => scanInboxLogs E logs

/-! ### `ArbProvider.processLogsProof` (provider.ts lines 488-500) -/

/-- `ArbProvider.processLogsProof`: fold the sibling hashes onto
`keccak(logPreHash, value.hash())` and compare with `logPostHash`. -/
def processLogsProof (E : ProviderEnv) (value : String) (proof : AVMProof) : Bool :=
  let startHash := E.keccak2 proof.logPreHash (E.valueHash value)
  let checkHash := proof.logValHashes.foldl (fun acc h => E.keccak2 acc h) startHash
  proof.logPostHash == checkHash

/-! ### Error taxonomy: each constructor is one `throw Error(...)` site -/

inductive ArbError where
  /-- `'txHash did not match its queried transaction ...'` — the spec's
  IntegrityError (queried id, recomputed id). -/
  | integrity (queried recomputed : String)
  /-- `'Failed to prove val is in logPostHash'` — the spec's
  ProofInvalidError. -/
  | proofInvalid
  /-- `"node doesn't exist on chain"`. -/
  | nodeNotOnChain
  /-- `'RollupAsserted tx had no logs'`. -/
  | assertionTxNoLogs
  /-- `'RollupAsserted <l1TxHash> not found on chain'`. -/
  | assertionNotFound (l1TxHash : String)
  /-- `'RollupAsserted Event is from a different address: ...'`. -/
  | wrongChainAddress (actual expected : String)
  /-- `'RollupAsserted Event on-chain logPostHash is: ...'`. -/
  | wrongLogPostHash (actual expected : String)
  /-- `'RollupAsserted Event on-chain nodeHash is: ...'`. -/
  | wrongNodeHash (actual expected : String)
deriving DecidableEq

/-! ### `ArbProvider.processConfirmedDisputableAssertion`
(provider.ts lines 505-557) -/

/-- Step B of verification: wait for the assertion transaction, locate
the `RollupAsserted` event among its logs (`findIndex` on the parsed
names; the log at that index carries both the raw address and the
decoded fields, so the source's parallel indexing is `List.find?`
here), then check — each fatally — the event's source address against
the rollup chain address (case-insensitively), `fields[6]` against
`proof.logPostHash`, and `fields[7]` against `nodeInfo.nodeHash`. -/
def processConfirmedDisputableAssertion (E : ProviderEnv) (nodeInfo : NodeInfo)
    (proof : AVMProof) : Except ArbError RollupReceipt :=
  match nodeInfo.l1TxHash with
  | none => .error .nodeNotOnChain
  | some l1TxHash =>
    let receipt := E.waitForTransaction l1TxHash
    match receipt.logs with
    | none => .error .assertionTxNoLogs
    | some logs =>
      match logs.find? (fun ev => ev.name == EB_EVENT_CDA) with
      | none => .error (.assertionNotFound l1TxHash)
      | some cda =>
        if cda.address.toLower ≠ E.vmId.toLower then
          .error (.wrongChainAddress cda.address E.vmId)
        else if cda.fields 6 ≠ proof.logPostHash then
          .error (.wrongLogPostHash (cda.fields 6) proof.logPostHash)
        else if cda.fields 7 ≠ nodeInfo.nodeHash then
          .error (.wrongNodeHash (cda.fields 7) nodeInfo.nodeHash)
        else .ok receipt

/-! ### `ArbProvider.getMessageResult` (provider.ts lines 221-287) -/

/-- The verified message result handed back by `getMessageResult`. -/
structure MessageResult where
  result : Result
  txHash : String
  nodeInfo : NodeInfo
deriving DecidableEq

/-- The identifier-resolution prefix of `getMessageResult`: a present
base-chain receipt means the input was an L1 hash and the rollup id is
re-derived from its logs (`none` when no delivery event matches);
otherwise the input is already the rollup id. -/
def resolvedArbTxId (E : ProviderEnv) (txHash : String) : Option String :=
  match E.ethGetTransactionReceipt txHash with
  | some ethReceipt => getArbTxId E ethReceipt
  | none => some txHash

/-- `ArbProvider.getMessageResult`: resolve the identifier, fetch the
raw result, recompute and check the envelope's message id, and — when
the proof and the assertion transaction are both present — run the
two-step verification, filling in the confirmation count.  `.ok none`
is the explicit not-found value. -/
def getMessageResult (E : ProviderEnv) (txHash : String) :
    Except ArbError (Option MessageResult) :=
  match resolvedArbTxId E txHash with
  | none => .ok none
  | some arbTxHash =>
    match E.clientGetMessageResult arbTxHash with
    | none => .ok none
    | some raw =>
      let result := E.fromValue raw.val
      let txHashCheck := result.incoming.messageID E
      if arbTxHash ≠ txHashCheck then
        .error (.integrity arbTxHash txHashCheck)
      else
        match raw.proof, raw.nodeInfo.l1TxHash with
        | some proof, some _ =>
          if processLogsProof E raw.val proof = false then
            .error .proofInvalid
          else
            match processConfirmedDisputableAssertion E raw.nodeInfo proof with
            | .error e => .error e
            | .ok receipt =>
              .ok (some { result := result, txHash := arbTxHash,
                          nodeInfo := { raw.nodeInfo with
                                        l1Confirmations := some receipt.confirmations } })
        | _, _ =>
          .ok (some { result := result, txHash := arbTxHash, nodeInfo := raw.nodeInfo })

/-! ### `ArbProvider.perform` — the `getCode` case (provider.ts 296-304) -/

/-- The `getCode` case of `ArbProvider.perform`: the two built-in
system addresses answer with the constant `'0x100'`; every other
address is answered via `arbInfo.getCode`. -/
def performGetCode (E : ProviderEnv) (address : String) : String :=
  if address = ARB_SYS_ADDRESS ∨ address = ARB_INFO_ADDRESS then "0x100"
  else E.arbInfoGetCode address

/-! ### `ArbProvider.call` (provider.ts lines 446-484) -/

/-- An `ethers` `BlockTag` is a string or a number. -/
inductive BlockTag where
  | str (s : String)
  | num (n : Nat)
deriving DecidableEq

/-- JavaScript truthiness of `if (blockTag)`: `undefined`, the empty
string and the number `0` are falsy. -/
def blockTagTruthy : Option BlockTag → Bool
  | none => false
  | some (.str s) => s ≠ ""
  | some (.num n) => n ≠ 0

inductive CallError where
  /-- `'Invalid block tag'`. -/
  | invalidBlockTag
  /-- `'Call was reverted'`. -/
  | callReverted
deriving DecidableEq

/-- `ArbProvider.call`: a truthy block tag must be `'pending'` or
`'latest'` (anything else throws); a falsy or absent tag takes the
`callLatest` default (which consults `pendingCall` when
`deterministicAssertions` is set).  A non-`Return` result code throws
`'Call was reverted'`; otherwise the hexlified return data comes back. -/
def providerCall (E : ProviderEnv) (tx : L2Call) (sender : Option String)
    (blockTag : Option BlockTag) : Except CallError String :=
  let callLatest : String :=
    if E.deterministicAssertions then E.clientPendingCall tx sender
    else E.clientCall tx sender
  let resultVal : Except CallError String :=
    if blockTagTruthy blockTag then
      match blockTag with
      | some tag =>
        if tag = .str "pending" then .ok (E.clientPendingCall tx sender)
        else if tag = .str "latest" then .ok callLatest
        else .error .invalidBlockTag
      | none => .ok callLatest
    else .ok callLatest
  match resultVal with
  | .error e => .error e
  | .ok v =>
    let result := E.fromValue v
    if result.resultCode ≠ ResultCode.Return then .error .callReverted
    else .ok result.returnData

/-! ### `ArbWallet` (wallet.ts): sequence cache and dual-path submission -/

/-- JavaScript truthiness of the cached sequence number
(`!this.seqCache`): `undefined` and a cached `0` are both falsy. -/
def seqFalsy : Option Nat → Bool
  | none => true
  | some n => n == 0

/-- One `generateAndIncrementSeq()` step (wallet.ts lines 55-66): the
sequence number returned, the new `seqCache`, and whether the live
on-chain transaction count was queried.  A falsy cache (absent, or a
cached `0`) triggers the live query `getTransactionCount(address)`. -/
structure SeqStep where
  seq : Nat
  cache : Option Nat
  queriedChain : Bool
deriving DecidableEq

def generateAndIncrementSeq (chainCount : Nat) (seqCache : Option Nat) : SeqStep :=
  match seqCache with
  | none => { seq := chainCount, cache := some (chainCount + 1), queriedChain := true }
  | some k =>
    if k == 0 then
      { seq := chainCount, cache := some (chainCount + 1), queriedChain := true }
    else
      { seq := k, cache := some (k + 1), queriedChain := false }

/-- The `catch` block of `sendTransactionMessage` (wallet.ts lines
227-232): `if (this.seqCache) { this.seqCache -= 1 }` — a truthy
(non-zero, present) cache is decremented by one before rethrowing. -/
def rollbackSeq : Option Nat → Option Nat
  | none => none
  | some k => if k == 0 then some k else some (k - 1)

/-- Repeated `generateAndIncrementSeq()` calls against a fixed on-chain
transaction count, collecting each step. -/
def reserveRun (chainCount : Nat) : Nat → Option Nat → List SeqStep
  | 0, _ => []
  | n + 1, cache =>
    let st := generateAndIncrementSeq chainCount cache
    st :: reserveRun chainCount n st.cache

/-- The mutable per-wallet state (wallet.ts fields `seqCache`,
`pubkey`). -/
structure WalletState where
  seqCache : Option Nat
  pubkey : Option String
deriving DecidableEq

inductive WalletError where
  /-- `'must specify gas limit'`. -/
  | mustSpecifyGasLimit
  /-- `'must specify gas price'`. -/
  | mustSpecifyGasPrice
  /-- An error thrown inside the `try` block of
  `sendTransactionMessage` (signing or dispatch), rethrown after the
  sequence-cache rollback. -/
  | submitFailed (msg : String)
deriving DecidableEq

/-- The handle returned by a submission; only its id (the hash under
which `_wrapTransaction` registers the response) matters to the
protocol: on the fast path it is the locally computed message id, on
the direct path the base-chain transaction hash. -/
structure TxResponse where
  hash : String
deriving DecidableEq

/-- The environment of an `ArbWallet` instance: its provider, whether
an aggregator is configured, the signer, and the dispatch
collaborators.  `aggregatorAck` is the aggregator's acknowledgement of
`sendTransaction` — the source never awaits or reads it. -/
structure WalletEnv where
  provider : ProviderEnv
  /-- `this.provider.aggregator` is configured. -/
  aggregatorPresent : Bool
  /-- `await this.getAddress()`. -/
  walletAddress : String
  /-- `this.provider.getTransactionCount(address)` for this wallet. -/
  getTransactionCount : Nat
  /-- `this.signer.signMessage(bytes)` over the batch hash; may throw. -/
  signMessage : String → Except String String
  /-- `ethers.utils.recoverPublicKey(hashMessage(bytes), sig)`. -/
  recoverPublicKey : String → String → String
  /-- Modelled from the spec: `message.ts` is not among the sources.
  `l2tx.batchHash(vmId)` — the second canonical hash of an outgoing
  message, the one signed on the aggregator path. -/
  batchHash : String → L2Transaction → String
  /-- Modelled from the spec: `message.ts` is not among the sources.
  `l2tx.asData()` — the opaque full serialization of the message. -/
  asData : L2Transaction → String
  /-- `globalInbox.sendL2Message(vmId, data)`: the base-chain
  transaction hash of the inbox submission, or a thrown error. -/
  sendL2Message : String → String → Except String String
  /-- The aggregator's acknowledgement (never consulted). -/
  aggregatorAck : String

/-- `ArbWallet.sendTransactionMessage` (wallet.ts lines 180-233).  Fast
path: compute `messageID` and `batchHash` locally, sign the batch
hash, derive/cache the public key from the first signature, fire the
aggregator call without awaiting it, and return a locally constructed
response whose hash is the message id.  Direct path: submit the
serialized message to the global inbox and return its base-chain
transaction hash.  Any error in either path decrements a truthy
`seqCache` by one and propagates. -/
def sendTransactionMessage (W : WalletEnv) (s : WalletState) (l2tx : L2Transaction) :
    Except WalletError TxResponse × WalletState :=
  if W.aggregatorPresent then
    let arbTxHash := l2tx.messageID W.provider W.walletAddress
    let batchTxHash := W.batchHash W.provider.vmId l2tx
    match W.signMessage batchTxHash with
    | .error e => (.error (.submitFailed e), { s with seqCache := rollbackSeq s.seqCache })
    | .ok sig =>
      let pubkey :=
        match s.pubkey with
        | none => W.recoverPublicKey batchTxHash sig
        | some pk => pk
      (.ok { hash := arbTxHash }, { s with pubkey := some pubkey })
  else
    match W.sendL2Message W.provider.vmId (W.asData l2tx) with
    | .error e => (.error (.submitFailed e), { s with seqCache := rollbackSeq s.seqCache })
    | .ok l1TxHash => (.ok { hash := l1TxHash }, s)

/-- `ArbWallet.sendTransaction` (wallet.ts lines 235-256): reject a
falsy gas limit or gas price before anything else, then reserve the
next sequence number and submit the built `L2Transaction`. -/
def walletSendTransaction (W : WalletEnv) (s : WalletState)
    (gasLimit gasPrice : Option Nat) (toAddr : String) (value : Nat) (data : String) :
    Except WalletError TxResponse × WalletState :=
  match gasLimit with
  | none => (.error .mustSpecifyGasLimit, s)
  | some gl =>
    if gl == 0 then (.error .mustSpecifyGasLimit, s)
    else
      match gasPrice with
      | none => (.error .mustSpecifyGasPrice, s)
      | some gp =>
        if gp == 0 then (.error .mustSpecifyGasPrice, s)
        else
          let st := generateAndIncrementSeq W.getTransactionCount s.seqCache
          let tx : L2Transaction :=
            { gasLimit := gl, gasPrice := gp, sequenceNum := st.seq,
              destAddress := toAddr, payment := value, calldata := data }
          sendTransactionMessage W { s with seqCache := st.cache } tx

/-! ### Concrete instances for witnesses and counterexamples -/

/-- A concrete decoded result used by concrete environments. -/
def sampleResult : Result :=
  { resultCode := .Return, logs := [], returnData := "0x",
    incoming := { sender := "0xsender", destAddress := "0xdest", sequenceNum := 3,
                  payment := 0, calldata := "0x", blockNumber := 0 } }

/-- A concrete provider environment whose opaque collaborators return
fixed values. -/
def sampleProviderEnv : ProviderEnv :=
  { vmId := "0xvm",
    calculateTransactionHash := fun _ _ _ _ _ _ => "0xmid",
    keccak2 := fun _ _ => "0xacc",
    valueHash := fun _ => "0xvh",
    fromValue := fun _ => sampleResult,
    ethGetTransactionReceipt := fun _ => none,
    clientGetMessageResult := fun _ => none,
    waitForTransaction := fun _ => { logs := none, confirmations := 0 },
    arbInfoGetCode := fun _ => "0xc0de",
    clientCall := fun _ _ => "v",
    clientPendingCall := fun _ _ => "v",
    deterministicAssertions := false }

/-- A concrete outgoing transaction. -/
def sampleL2Tx : L2Transaction :=
  { gasLimit := 1, gasPrice := 1, sequenceNum := 5, destAddress := "0xdest",
    payment := 0, calldata := "0x" }

/-- A concrete wallet environment whose direct dispatch path fails. -/
def failingInboxWalletEnv : WalletEnv :=
  { provider := sampleProviderEnv,
    aggregatorPresent := false,
    walletAddress := "0xme",
    getTransactionCount := 5,
    signMessage := fun _ => .ok "0xsig",
    recoverPublicKey := fun _ _ => "0xpk",
    batchHash := fun _ _ => "0xbatch",
    asData := fun _ => "0xdata",
    sendL2Message := fun _ _ => .error "boom",
    aggregatorAck := "" }

/-! ### C7 — cold-cache sequence reservations -/

/-- From a warm, non-zero cache every reservation is served from memory:
the run is the contiguous range with no chain query. -/
theorem reserveRun_warm (c : Nat) :
    ∀ (n k : Nat), k ≠ 0 →
      reserveRun c n (some k) =
        (List.range' k n).map
          (fun i => { seq := i, cache := some (i + 1), queriedChain := false }) := by
  intro n
  induction n with
  | zero => intro k _; simp [reserveRun]
  | succ n ih =>
    intro k hk
    rw [List.range'_succ]
    simp only [reserveRun, generateAndIncrementSeq, List.map_cons]
    rw [if_neg (by simpa using hk)]
    exact congrArg _ (ih (k + 1) (Nat.succ_ne_zero k))

/-- C7: for a single account starting from a cold sequence cache, the
first reservation queries the live on-chain transaction count and every
subsequent reservation is served from the in-memory counter without
re-querying; N consecutive reservations without failure return exactly
the contiguous range [initialCount, initialCount + N). -/
theorem cold_cache_contiguous_range (c N : Nat) :
    (reserveRun c N none).map SeqStep.seq = List.range' c N ∧
    (reserveRun c N none).map SeqStep.queriedChain =
      (if N = 0 then [] else true :: List.replicate (N - 1) false) := by
  cases N with
  | zero => simp [reserveRun]
  | succ n =>
    have hwarm := reserveRun_warm c n (c + 1) (Nat.succ_ne_zero c)
    rw [List.range'_succ]
    simp [reserveRun, generateAndIncrementSeq, hwarm, List.map_map, Function.comp_def,
      List.map_const', List.length_range']

/-! ### C6 — failed submission rolls the reservation back -/

/-- Rolling back a fresh reservation restores the sequence number the
next reservation hands out, for every prior cache state. -/
theorem gen_rollback_gen (c : Nat) (cache : Option Nat) :
    (generateAndIncrementSeq c (rollbackSeq (generateAndIncrementSeq c cache).cache)).seq =
      (generateAndIncrementSeq c cache).seq := by
  have hroll : ∀ m : Nat, rollbackSeq (some (m + 1)) = some m := by
    intro m; simp [rollbackSeq]
  have hcase : ∀ m : Nat, (generateAndIncrementSeq c (some m)).seq = if m = 0 then c else m := by
    intro m
    by_cases hm : m = 0 <;> simp [generateAndIncrementSeq, hm]
  rcases cache with _ | k
  · show (generateAndIncrementSeq c (rollbackSeq (some (c + 1)))).seq = c
    rw [hroll c, hcase c]
    split_ifs with h
    · rfl
    · rfl
  · by_cases hk : k = 0
    · subst hk
      show (generateAndIncrementSeq c (rollbackSeq (some (c + 1)))).seq = c
      rw [hroll c, hcase c]
      split_ifs <;> rfl
    · have hgen : generateAndIncrementSeq c (some k) =
          { seq := k, cache := some (k + 1), queriedChain := false } := by
        simp [generateAndIncrementSeq, hk]
      rw [hgen, hroll k, hcase k, if_neg hk]

/-- C6: when a submission fails on either dispatch path after a
sequence number was reserved, the reservation is rolled back before the
error propagates, so the next `generateAndIncrementSeq` returns the
same sequence number it would have returned had the failed attempt
never been reserved. -/
theorem failed_submission_rolls_back_seq (W : WalletEnv) (s : WalletState)
    (l2tx : L2Transaction) (e : WalletError) (s' : WalletState)
    (hfail : sendTransactionMessage W
        { s with seqCache := (generateAndIncrementSeq W.getTransactionCount s.seqCache).cache }
        l2tx = (.error e, s')) :
    (generateAndIncrementSeq W.getTransactionCount s'.seqCache).seq =
      (generateAndIncrementSeq W.getTransactionCount s.seqCache).seq := by
  have hs' : s'.seqCache =
      rollbackSeq (generateAndIncrementSeq W.getTransactionCount s.seqCache).cache := by
    by_cases hA : W.aggregatorPresent
    · cases hsig : W.signMessage (W.batchHash W.provider.vmId l2tx) with
      | error m =>
        simp only [sendTransactionMessage, hA, if_true, hsig, Prod.mk.injEq] at hfail
        rw [← hfail.2]
      | ok sig =>
        simp only [sendTransactionMessage, hA, if_true, hsig, Prod.mk.injEq] at hfail
        exact absurd hfail.1 (by simp)
    · cases hsend : W.sendL2Message W.provider.vmId (W.asData l2tx) with
      | error m =>
        simp only [sendTransactionMessage, hA, Bool.false_eq_true, if_false, hsend,
          Prod.mk.injEq] at hfail
        rw [← hfail.2]
      | ok h =>
        simp only [sendTransactionMessage, hA, Bool.false_eq_true, if_false, hsend,
          Prod.mk.injEq] at hfail
        exact absurd hfail.1 (by simp)
  rw [hs']
  exact gen_rollback_gen _ _

/-- Witness for C6: a cold wallet against a chain count of 5 reserves
sequence number 5; the inbox dispatch fails, the cache rolls back to 5,
and the next reservation returns 5 again. -/
theorem failed_submission_rolls_back_seq_witness :
    sendTransactionMessage failingInboxWalletEnv
        { seqCache := (generateAndIncrementSeq failingInboxWalletEnv.getTransactionCount
            (WalletState.mk none none).seqCache).cache,
          pubkey := none } sampleL2Tx
      = (.error (.submitFailed "boom"), { seqCache := some 5, pubkey := none }) ∧
    (generateAndIncrementSeq failingInboxWalletEnv.getTransactionCount
        (WalletState.mk (some 5) none).seqCache).seq =
      (generateAndIncrementSeq failingInboxWalletEnv.getTransactionCount
        (WalletState.mk none none).seqCache).seq :=
  ⟨by rfl,
   failed_submission_rolls_back_seq failingInboxWalletEnv ⟨none, none⟩ sampleL2Tx
     (.submitFailed "boom") ⟨some 5, none⟩ (by rfl)⟩

/-! ### C10 — `getCode` for the built-in system addresses -/

/-- C10: `getCode` answers the two built-in system addresses (the
ArbSys precompile 0x..64 and the ArbInfo precompile 0x..65) with the
constant `'0x100'`, independently of the environment (so neither the
rollup nor the base chain is consulted), while every other address is
answered via the rollup system-info surface `arbInfo.getCode`. -/
theorem get_code_system_addresses (E E2 : ProviderEnv) (address : String)
    (h64 : address ≠ ARB_SYS_ADDRESS) (h65 : address ≠ ARB_INFO_ADDRESS) :
    performGetCode E ARB_SYS_ADDRESS = "0x100" ∧
    performGetCode E ARB_INFO_ADDRESS = "0x100" ∧
    performGetCode E ARB_SYS_ADDRESS = performGetCode E2 ARB_SYS_ADDRESS ∧
    performGetCode E ARB_INFO_ADDRESS = performGetCode E2 ARB_INFO_ADDRESS ∧
    performGetCode E address = E.arbInfoGetCode address := by
  refine ⟨by simp [performGetCode], by simp [performGetCode],
    by simp [performGetCode], by simp [performGetCode], ?_⟩
  simp [performGetCode, h64, h65]

/-- Witness for C10: the address `"0xother"` differs from both system
addresses and is answered by the system-info surface. -/
theorem get_code_system_addresses_witness :
    ("0xother" ≠ ARB_SYS_ADDRESS ∧ "0xother" ≠ ARB_INFO_ADDRESS) ∧
    performGetCode sampleProviderEnv "0xother" = "0xc0de" :=
  ⟨⟨by decide, by decide⟩, by
    have h := get_code_system_addresses sampleProviderEnv sampleProviderEnv "0xother"
      (by decide) (by decide)
    exact h.2.2.2.2.trans rfl⟩

/-! ### C2 — log-inclusion verification -/

/-- A raw validator result carrying a proof with zero siblings whose
`logPostHash` does not match the recomputed accumulator. -/
def badProof : AVMProof :=
  { logPreHash := "0xpre", logValHashes := [], logPostHash := "0xbad" }

def badProofRaw : RawResult :=
  { val := "value",
    nodeInfo := { nodeHash := "0xnode", nodeHeight := 1,
                  l1TxHash := some "0xl1", l1Confirmations := none },
    proof := some badProof }

/-- A provider environment that holds `badProofRaw` under the rollup id
`"0xmid"` (which is also what the opaque message-id hash returns, so
the integrity check passes and verification is reached). -/
def badProofEnv : ProviderEnv :=
  { sampleProviderEnv with
    clientGetMessageResult := fun h => if h = "0xmid" then some badProofRaw else none }

/-- C2: log-inclusion verification succeeds iff folding each sibling in
order as `acc = hash(acc, sibling)`, starting from
`acc = hash(logPreHash, hash(value))`, produces exactly `logPostHash`;
and whenever the fold result differs (for any input on which Step A is
reached), `getMessageResult` fails with the fatal proof-invalid error
instead of returning a result. -/
theorem logs_proof_fold_and_fatal (E : ProviderEnv) :
    (∀ (value : String) (proof : AVMProof),
      processLogsProof E value proof = true ↔
        proof.logValHashes.foldl (fun acc h => E.keccak2 acc h)
          (E.keccak2 proof.logPreHash (E.valueHash value)) = proof.logPostHash) ∧
    (∀ (tx : String) (raw : RawResult) (proof : AVMProof) (l1 : String),
      E.ethGetTransactionReceipt tx = none →
      E.clientGetMessageResult tx = some raw →
      raw.proof = some proof →
      raw.nodeInfo.l1TxHash = some l1 →
      (E.fromValue raw.val).incoming.messageID E = tx →
      processLogsProof E raw.val proof = false →
      getMessageResult E tx = .error .proofInvalid) := by
  constructor
  · intro value proof
    simp only [processLogsProof, beq_iff_eq]
    exact eq_comm
  · intro tx raw proof l1 hrec hraw hproof hl1 hid hbad
    simp [getMessageResult, resolvedArbTxId, hrec, hraw, hproof, hl1, hid, hbad]

/-- Witness for C2: with zero siblings and `logPostHash ≠
hash(logPreHash, hash(value))`, verification fails and
`getMessageResult` surfaces the fatal proof-invalid error. -/
theorem logs_proof_fold_and_fatal_witness :
    ((processLogsProof badProofEnv "value" badProof = true ↔
        badProof.logValHashes.foldl (fun acc h => badProofEnv.keccak2 acc h)
          (badProofEnv.keccak2 badProof.logPreHash (badProofEnv.valueHash "value")) =
          badProof.logPostHash) ∧
      getMessageResult badProofEnv "0xmid" = .error .proofInvalid) ∧
    processLogsProof badProofEnv "value" badProof = false :=
  ⟨⟨(logs_proof_fold_and_fatal badProofEnv).1 "value" badProof,
    (logs_proof_fold_and_fatal badProofEnv).2 "0xmid" badProofRaw badProof "0xl1"
      rfl rfl rfl rfl rfl rfl⟩,
   by rfl⟩

/-! ### C4 — identifier integrity on fetched results -/

/-- A raw result whose envelope recomputes to a different id than the
one it was queried under. -/
def forgedRaw : RawResult :=
  { val := "forged",
    nodeInfo := { nodeHash := "0xnode", nodeHeight := 1,
                  l1TxHash := none, l1Confirmations := none },
    proof := none }

def forgedEnv : ProviderEnv :=
  { sampleProviderEnv with
    calculateTransactionHash := fun _ _ _ _ _ _ => "0xother",
    clientGetMessageResult := fun h => if h = "0xqueried" then some forgedRaw else none }

/-- C4: for every fetched raw result, the message id recomputed from
the result's own envelope is compared with the rollup id used for the
query; whenever they differ, `getMessageResult` fails with the fatal
integrity error carrying both ids and never returns the result. -/
theorem integrity_mismatch_fatal (E : ProviderEnv) (txHash arbTxHash : String)
    (raw : RawResult)
    (hres : resolvedArbTxId E txHash = some arbTxHash)
    (hraw : E.clientGetMessageResult arbTxHash = some raw)
    (hmismatch : (E.fromValue raw.val).incoming.messageID E ≠ arbTxHash) :
    getMessageResult E txHash =
      .error (.integrity arbTxHash ((E.fromValue raw.val).incoming.messageID E)) := by
  simp [getMessageResult, hres, hraw, Ne.symm hmismatch]

/-- Witness for C4: a result stored under `"0xqueried"` whose envelope
recomputes to `"0xother"` makes resolution fail with the integrity
error. -/
theorem integrity_mismatch_fatal_witness :
    ((forgedEnv.fromValue forgedRaw.val).incoming.messageID forgedEnv ≠ "0xqueried") ∧
    getMessageResult forgedEnv "0xqueried" =
      .error (.integrity "0xqueried"
        ((forgedEnv.fromValue forgedRaw.val).incoming.messageID forgedEnv)) :=
  ⟨by decide,
   integrity_mismatch_fatal forgedEnv "0xqueried" "0xqueried" forgedRaw rfl rfl (by decide)⟩

/-! ### C8 — the two non-exceptional not-found cases -/

/-- C8: `getMessageResult` returns the explicit not-found value (and
not an error) in exactly two cases: the identifier resolved to no
rollup id (a base-chain receipt exists but carries none of the four
delivery events), or the validator has no raw result for the resolved
rollup id. -/
theorem message_result_not_found_cases (E : ProviderEnv) (txHash : String) :
    (getMessageResult E txHash = .ok none ↔
      resolvedArbTxId E txHash = none ∨
      (∃ id, resolvedArbTxId E txHash = some id ∧ E.clientGetMessageResult id = none)) ∧
    (resolvedArbTxId E txHash = none ↔
      (∃ r, E.ethGetTransactionReceipt txHash = some r ∧ getArbTxId E r = none)) := by
  constructor
  · unfold getMessageResult
    cases hres : resolvedArbTxId E txHash with
    | none => simp
    | some id =>
      cases hc : E.clientGetMessageResult id with
      | none => simp [hc]
      | some raw =>
        by_cases hmis : id ≠ (E.fromValue raw.val).incoming.messageID E
        · simp [hmis, hc]
        · push_neg at hmis
          rcases hp : raw.proof with _ | proof
          · simp [← hmis, hp, hc]
          · rcases hl : raw.nodeInfo.l1TxHash with _ | l1
            · simp [← hmis, hp, hl, hc]
            · by_cases hlp : processLogsProof E raw.val proof = false
              · simp [← hmis, hp, hl, hlp, hc]
              · rcases hcda : processConfirmedDisputableAssertion E raw.nodeInfo proof with
                  e | receipt
                · simp [← hmis, hp, hl, hlp, hcda, hc]
                · simp [← hmis, hp, hl, hlp, hcda, hc]
  · unfold resolvedArbTxId
    cases hrec : E.ethGetTransactionReceipt txHash with
    | none => simp
    | some r => simp

/-! ### C5 — resolved rollup id per delivery-event kind -/

/-- Whether a parsed receipt log is one of the four message-delivery
events `getArbTxId` reacts to (a null parse is not). -/
def isDeliveryLog : Option ParsedInboxLog → Bool
  | none => false
  | some l =>
    l.name == TransactionMessageDelivered || l.name == EthDepositMessageDelivered
      || l.name == ERC20DepositMessageDelivered || l.name == ERC721DepositMessageDelivered

/-- The scan ignores a prefix of logs that are null parses or
non-delivery events. -/
theorem scanInboxLogs_skip (E : ProviderEnv) :
    ∀ (pre rest : List (Option ParsedInboxLog)),
      (∀ x ∈ pre, isDeliveryLog x = false) →
      scanInboxLogs E (pre ++ rest) = scanInboxLogs E rest := by
  intro pre
  induction pre with
  | nil => intro rest _; rfl
  | cons x pre ih =>
    intro rest hpre
    have hx : isDeliveryLog x = false := hpre x (List.mem_cons_self x pre)
    have hrest : ∀ y ∈ pre, isDeliveryLog y = false :=
      fun y hy => hpre y (List.mem_cons_of_mem x hy)
    cases x with
    | none => simpa [scanInboxLogs] using ih rest hrest
    | some l =>
      simp only [isDeliveryLog, Bool.or_eq_false_iff, beq_eq_false_iff_ne, ne_eq] at hx
      simp only [List.cons_append, scanInboxLogs, hx.1.1.1, hx.1.1.2, hx.1.2, hx.2,
        if_false, or_self, ite_false]
      exact ih rest hrest

/-- The 32-byte left-pad of the message number 7. -/
theorem hexZeroPad_seven :
    hexZeroPad (toHexString 7) 32 =
      "0x0000000000000000000000000000000000000000000000000000000000000007" := by
  decide

/-- C5: when the first delivery event of a base-chain receipt's decoded
logs is a deposit event (ETH, ERC-20 or ERC-721), the resolved rollup
message id is the event's message-number field left-padded to 32 bytes
(so `messageNum = 7` resolves to `0x00..07`), while a
transaction-delivery event yields the message-id hash over (chain id,
destination, sender, sequence number, value, payload). -/
theorem arb_tx_id_from_events (E : ProviderEnv) (r : InboxReceipt)
    (pre post : List (Option ParsedInboxLog)) (l : ParsedInboxLog)
    (hlogs : r.logs = some (pre ++ some l :: post))
    (hpre : ∀ x ∈ pre, isDeliveryLog x = false) :
    ((l.name = EthDepositMessageDelivered ∨ l.name = ERC20DepositMessageDelivered ∨
        l.name = ERC721DepositMessageDelivered) →
      getArbTxId E r = some (hexZeroPad (toHexString l.messageNum) 32)) ∧
    (l.name = TransactionMessageDelivered →
      getArbTxId E r = some (E.calculateTransactionHash E.vmId l.toAddr l.fromAddr
        l.seqNumber l.value l.data)) ∧
    hexZeroPad (toHexString 7) 32 =
      "0x0000000000000000000000000000000000000000000000000000000000000007" := by
  have hscan : getArbTxId E r = scanInboxLogs E (some l :: post) := by
    simp only [getArbTxId, hlogs]
    exact scanInboxLogs_skip E pre (some l :: post) hpre
  refine ⟨?_, ?_, hexZeroPad_seven⟩
  · intro hdep
    have hne : l.name ≠ TransactionMessageDelivered := by
      rcases hdep with h | h | h <;> rw [h] <;> decide
    rw [hscan]
    rcases hdep with h | h | h <;> simp [scanInboxLogs, hne, h] <;>
      exact fun hcontra => absurd hcontra (by decide)
  · intro htx
    rw [hscan]
    simp [scanInboxLogs, htx]

/-- A receipt whose single decoded log is an ETH-deposit-delivered
event with `messageNum = 7`. -/
def ethDepositLog7 : ParsedInboxLog :=
  { name := EthDepositMessageDelivered, toAddr := "0xto", fromAddr := "0xfrom",
    seqNumber := 0, value := 0, data := "0x", messageNum := 7 }

def ethDepositReceipt7 : InboxReceipt :=
  { logs := some [some ethDepositLog7] }

/-- Witness for C5: resolving a receipt holding an ETH-deposit event
with `messageNum = 7` yields the 32-byte left-padded id `0x00..07`. -/
theorem arb_tx_id_from_events_witness :
    ethDepositReceipt7.logs = some ([] ++ some ethDepositLog7 :: []) ∧
    getArbTxId sampleProviderEnv ethDepositReceipt7 =
      some "0x0000000000000000000000000000000000000000000000000000000000000007" :=
  ⟨rfl, by
    have h := arb_tx_id_from_events sampleProviderEnv ethDepositReceipt7 [] []
      ethDepositLog7 rfl (by intro x hx; cases hx)
    exact (h.1 (Or.inl rfl)).trans (by decide)⟩

/-! ### C3 — assertion-confirmation checks -/

/-- C3: after locating the `RollupAsserted` event in the mined
assertion transaction's logs, each of the three checks failing is
fatal: the event's source address must equal the rollup chain address,
`fields[6]` must equal `proof.logPostHash`, and `fields[7]` must equal
`nodeInfo.nodeHash`; in particular a node-hash mismatch fails the whole
`getMessageResult` verification with an error even when the
log-inclusion step already passed. -/
theorem assertion_confirmation_checks (E : ProviderEnv) :
    (∀ (nodeInfo : NodeInfo) (proof : AVMProof) (l1 : String) (logs : List RollupLog)
        (cda : RollupLog),
      nodeInfo.l1TxHash = some l1 →
      (E.waitForTransaction l1).logs = some logs →
      logs.find? (fun ev => ev.name == EB_EVENT_CDA) = some cda →
      (cda.address.toLower ≠ E.vmId.toLower →
        processConfirmedDisputableAssertion E nodeInfo proof =
          .error (.wrongChainAddress cda.address E.vmId)) ∧
      (cda.address.toLower = E.vmId.toLower → cda.fields 6 ≠ proof.logPostHash →
        processConfirmedDisputableAssertion E nodeInfo proof =
          .error (.wrongLogPostHash (cda.fields 6) proof.logPostHash)) ∧
      (cda.address.toLower = E.vmId.toLower → cda.fields 6 = proof.logPostHash →
        cda.fields 7 ≠ nodeInfo.nodeHash →
        processConfirmedDisputableAssertion E nodeInfo proof =
          .error (.wrongNodeHash (cda.fields 7) nodeInfo.nodeHash))) ∧
    (∀ (tx : String) (raw : RawResult) (proof : AVMProof) (l1 : String)
        (logs : List RollupLog) (cda : RollupLog),
      E.ethGetTransactionReceipt tx = none →
      E.clientGetMessageResult tx = some raw →
      raw.proof = some proof →
      raw.nodeInfo.l1TxHash = some l1 →
      (E.fromValue raw.val).incoming.messageID E = tx →
      processLogsProof E raw.val proof = true →
      (E.waitForTransaction l1).logs = some logs →
      logs.find? (fun ev => ev.name == EB_EVENT_CDA) = some cda →
      cda.address.toLower = E.vmId.toLower →
      cda.fields 6 = proof.logPostHash →
      cda.fields 7 ≠ raw.nodeInfo.nodeHash →
      getMessageResult E tx = .error (.wrongNodeHash (cda.fields 7) raw.nodeInfo.nodeHash)) := by
  have hcda : ∀ (nodeInfo : NodeInfo) (proof : AVMProof) (l1 : String)
      (logs : List RollupLog) (cda : RollupLog),
      nodeInfo.l1TxHash = some l1 →
      (E.waitForTransaction l1).logs = some logs →
      logs.find? (fun ev => ev.name == EB_EVENT_CDA) = some cda →
      cda.address.toLower = E.vmId.toLower →
      cda.fields 6 = proof.logPostHash →
      cda.fields 7 ≠ nodeInfo.nodeHash →
      processConfirmedDisputableAssertion E nodeInfo proof =
        .error (.wrongNodeHash (cda.fields 7) nodeInfo.nodeHash) := by
    intro nodeInfo proof l1 logs cda hl1 hlogs hfind haddr h6 h7
    simp [processConfirmedDisputableAssertion, hl1, hlogs, hfind, haddr, h6, h7]
  constructor
  · intro nodeInfo proof l1 logs cda hl1 hlogs hfind
    refine ⟨?_, ?_, fun haddr h6 h7 => hcda nodeInfo proof l1 logs cda hl1 hlogs hfind haddr h6 h7⟩
    · intro haddr
      simp [processConfirmedDisputableAssertion, hl1, hlogs, hfind, haddr]
    · intro haddr h6
      simp [processConfirmedDisputableAssertion, hl1, hlogs, hfind, haddr, h6]
  · intro tx raw proof l1 logs cda hrec hraw hproof hl1 hid hlp hlogs hfind haddr h6 h7
    have hstep := hcda raw.nodeInfo proof l1 logs cda hl1 hlogs hfind haddr h6 h7
    simp [getMessageResult, resolvedArbTxId, hrec, hraw, hproof, hl1, hid, hlp, hstep]

/-- A concrete scenario for C3's witness: the log-inclusion fold
matches, the published event's address and post-logs hash match, but
its node hash differs from `nodeInfo.nodeHash`. -/
def cdaLogBadNode : RollupLog :=
  { address := "0xvm", name := EB_EVENT_CDA,
    fields := fun i => if i = 6 then "0xacc" else if i = 7 then "0xevil" else "" }

def cdaRawBadNode : RawResult :=
  { val := "value",
    nodeInfo := { nodeHash := "0xnode", nodeHeight := 1,
                  l1TxHash := some "0xl1", l1Confirmations := none },
    proof := some { logPreHash := "0xpre", logValHashes := [], logPostHash := "0xacc" } }

def cdaEnvBadNode : ProviderEnv :=
  { sampleProviderEnv with
    vmId := "0xvm",
    clientGetMessageResult := fun h => if h = "0xmid" then some cdaRawBadNode else none,
    waitForTransaction := fun h =>
      if h = "0xl1" then { logs := some [cdaLogBadNode], confirmations := 3 }
      else { logs := none, confirmations := 0 } }

/-- Witness for C3: the log-inclusion step passes (zero siblings, the
accumulator matches `logPostHash`), the event's address matches the
chain address case-insensitively, yet the node-hash mismatch makes the
whole resolution fail. -/
theorem assertion_confirmation_checks_witness :
    processLogsProof cdaEnvBadNode cdaRawBadNode.val
        { logPreHash := "0xpre", logValHashes := [], logPostHash := "0xacc" } = true ∧
    cdaLogBadNode.fields 7 ≠ cdaRawBadNode.nodeInfo.nodeHash ∧
    getMessageResult cdaEnvBadNode "0xmid" = .error (.wrongNodeHash "0xevil" "0xnode") :=
  ⟨by decide, by decide,
   (assertion_confirmation_checks cdaEnvBadNode).2 "0xmid" cdaRawBadNode
     { logPreHash := "0xpre", logValHashes := [], logPostHash := "0xacc" } "0xl1"
     [cdaLogBadNode] cdaLogBadNode rfl rfl rfl rfl rfl (by decide) rfl rfl rfl
     rfl (by decide)⟩

/-! ### C9 — precondition errors (and the falsy-block-tag exception) -/

def emptyL2Call : L2Call :=
  { gasLimit := none, gasPrice := none, toAddr := none, data := none }

/-- Counterexample for C9 as stated: the numeric block tag `0` is
neither `'pending'` nor `'latest'`, yet `call` does not fail — a falsy
tag fails the JavaScript `if (blockTag)` guard and silently takes the
default latest-call path. -/
theorem falsy_block_tag_cex :
    (BlockTag.num 0 ≠ BlockTag.str "pending" ∧ BlockTag.num 0 ≠ BlockTag.str "latest") ∧
    providerCall sampleProviderEnv emptyL2Call none (some (BlockTag.num 0)) = .ok "0x" :=
  ⟨⟨by decide, by decide⟩, by rfl⟩

/-- C9 (amended): `sendTransaction` fails with the missing-gas
precondition errors before any sequence number is reserved, leaving the
wallet state (and so the sequence cache) unchanged; and `call` fails
with the invalid-block-tag error for every *truthy* block tag other
than `'pending'` or `'latest'` (falsy tags — absent, `''`, `0` — are
treated as absent and take the default latest-call path). -/
theorem precondition_errors (W : WalletEnv) (s : WalletState) (gasPrice : Option Nat)
    (toAddr : String) (value : Nat) (data : String) (E : ProviderEnv) (tx : L2Call)
    (sender : Option String) (tag : BlockTag)
    (htruthy : blockTagTruthy (some tag) = true)
    (hnp : tag ≠ .str "pending") (hnl : tag ≠ .str "latest") :
    walletSendTransaction W s none gasPrice toAddr value data =
      (.error .mustSpecifyGasLimit, s) ∧
    (∀ gl : Nat, gl ≠ 0 →
      walletSendTransaction W s (some gl) none toAddr value data =
        (.error .mustSpecifyGasPrice, s)) ∧
    providerCall E tx sender (some tag) = .error .invalidBlockTag := by
  refine ⟨rfl, ?_, ?_⟩
  · intro gl hgl
    simp [walletSendTransaction, hgl]
  · simp [providerCall, htruthy, hnp, hnl]

/-- Witness for C9: a missing gas limit, a missing gas price, and the
truthy tag `'earliest'` each error as the amended claim states. -/
theorem precondition_errors_witness :
    (blockTagTruthy (some (.str "earliest")) = true ∧
      BlockTag.str "earliest" ≠ .str "pending" ∧ BlockTag.str "earliest" ≠ .str "latest") ∧
    walletSendTransaction failingInboxWalletEnv ⟨none, none⟩ none (some 1) "0xdest" 0 "0x" =
      (.error .mustSpecifyGasLimit, ⟨none, none⟩) ∧
    walletSendTransaction failingInboxWalletEnv ⟨none, none⟩ (some 1) none "0xdest" 0 "0x" =
      (.error .mustSpecifyGasPrice, ⟨none, none⟩) ∧
    providerCall sampleProviderEnv emptyL2Call none (some (.str "earliest")) =
      .error .invalidBlockTag := by
  have h := precondition_errors failingInboxWalletEnv ⟨none, none⟩ (some 1) "0xdest" 0 "0x"
    sampleProviderEnv emptyL2Call none (.str "earliest") (by decide) (by decide) (by decide)
  exact ⟨⟨by decide, by decide, by decide⟩, h.1, h.2.1 1 (by decide), h.2.2⟩

/-! ### C1 — dual-path submission and handle-id resolution -/

/-- Whenever `getMessageResult` returns a result, the result's `txHash`
is the resolved rollup id and the id recomputed from the result's own
envelope equals it. -/
theorem getMessageResult_ok_id (E : ProviderEnv) (txHash : String) (mr : MessageResult)
    (h : getMessageResult E txHash = .ok (some mr)) :
    resolvedArbTxId E txHash = some mr.txHash ∧
      mr.result.incoming.messageID E = mr.txHash := by
  unfold getMessageResult at h
  cases hres : resolvedArbTxId E txHash with
  | none =>
    simp only [hres] at h
    exact absurd h (by simp)
  | some id =>
    simp only [hres] at h
    cases hc : E.clientGetMessageResult id with
    | none =>
      simp only [hc] at h
      exact absurd h (by simp)
    | some raw =>
      simp only [hc] at h
      by_cases hmis : id ≠ (E.fromValue raw.val).incoming.messageID E
      · rw [if_pos hmis] at h
        exact absurd h (by simp)
      · push_neg at hmis
        rw [if_neg (by simp [hmis])] at h
        rcases hp : raw.proof with _ | proof
        · simp only [hp, Except.ok.injEq, Option.some.injEq] at h
          rw [← h]
          exact ⟨rfl, hmis.symm⟩
        · rcases hl : raw.nodeInfo.l1TxHash with _ | l1
          · simp only [hp, hl, Except.ok.injEq, Option.some.injEq] at h
            rw [← h]
            exact ⟨rfl, hmis.symm⟩
          · simp only [hp, hl] at h
            by_cases hlp : processLogsProof E raw.val proof = false
            · rw [if_pos hlp] at h
              exact absurd h (by simp)
            · rw [if_neg hlp] at h
              rcases hcda : processConfirmedDisputableAssertion E raw.nodeInfo proof with
                e | receipt
              · rw [hcda] at h
                exact absurd h (by simp)
              · rw [hcda] at h
                simp only [Except.ok.injEq, Option.some.injEq] at h
                rw [← h]
                exact ⟨rfl, hmis.symm⟩

/-- C1 (amended): a successful fast-path submission returns a handle
whose id is the locally computed `l2tx.messageID(from)`, independent of
the aggregator's acknowledgement, and resolving that id (a rollup-native
id, so no base-chain receipt exists for it) yields a MessageResult
whose recomputed envelope id equals the handle's id; a successful
direct-path submission returns the base-chain transaction hash, whose
resolution converges on the rollup id re-derived from the receipt's
delivery event — the recomputed envelope id equals that resolved id
(`MessageResult.txHash`), not necessarily the handle's base-chain id. -/
theorem dual_path_submission_resolution (W : WalletEnv) (s : WalletState)
    (l2tx : L2Transaction) (r : TxResponse) (s' : WalletState) (E : ProviderEnv)
    (mr : MessageResult) (receipt : InboxReceipt) :
    (W.aggregatorPresent = true → sendTransactionMessage W s l2tx = (.ok r, s') →
      r.hash = l2tx.messageID W.provider W.walletAddress ∧
      (∀ ack, sendTransactionMessage { W with aggregatorAck := ack } s l2tx = (.ok r, s'))) ∧
    (E.ethGetTransactionReceipt r.hash = none →
      getMessageResult E r.hash = .ok (some mr) →
      mr.result.incoming.messageID E = r.hash ∧ mr.txHash = r.hash) ∧
    (E.ethGetTransactionReceipt r.hash = some receipt →
      getMessageResult E r.hash = .ok (some mr) →
      getArbTxId E receipt = some mr.txHash ∧
      mr.result.incoming.messageID E = mr.txHash) := by
  refine ⟨?_, ?_, ?_⟩
  · intro hA hok
    have hsame : ∀ ack, sendTransactionMessage { W with aggregatorAck := ack } s l2tx =
        sendTransactionMessage W s l2tx := fun _ => rfl
    refine ⟨?_, fun ack => (hsame ack).trans hok⟩
    cases hsig : W.signMessage (W.batchHash W.provider.vmId l2tx) with
    | error m =>
      simp only [sendTransactionMessage, hA, if_true, hsig, Prod.mk.injEq] at hok
      exact absurd hok.1 (by simp)
    | ok sig =>
      simp only [sendTransactionMessage, hA, if_true, hsig, Prod.mk.injEq,
        Except.ok.injEq] at hok
      rw [← hok.1]
  · intro hrec hok
    have h := getMessageResult_ok_id E r.hash mr hok
    have hsome : some r.hash = some mr.txHash := by
      rw [← h.1]
      simp [resolvedArbTxId, hrec]
    have htx : r.hash = mr.txHash := Option.some.inj hsome
    exact ⟨htx ▸ h.2, htx.symm⟩
  · intro hrec hok
    have h := getMessageResult_ok_id E r.hash mr hok
    refine ⟨?_, h.2⟩
    rw [← h.1]
    simp [resolvedArbTxId, hrec]

/-- A wallet environment with an aggregator configured. -/
def fastWalletEnv : WalletEnv :=
  { failingInboxWalletEnv with aggregatorPresent := true }

/-- A raw validator result (no proof yet) stored under the rollup id
`"0xmid"`, which is also what the opaque message-id hash returns. -/
def midRaw : RawResult :=
  { val := "value",
    nodeInfo := { nodeHash := "0xnode", nodeHeight := 1,
                  l1TxHash := none, l1Confirmations := none },
    proof := none }

def midEnv : ProviderEnv :=
  { sampleProviderEnv with
    clientGetMessageResult := fun h => if h = "0xmid" then some midRaw else none }

def midMR : MessageResult :=
  { result := sampleResult, txHash := "0xmid", nodeInfo := midRaw.nodeInfo }

/-- Witness for C1's amended theorem: the fast path hands back the
locally computed id `"0xmid"` whatever the aggregator acknowledges, and
resolving it gives back a result whose recomputed envelope id is
`"0xmid"` again. -/
theorem dual_path_submission_resolution_witness :
    ((TxResponse.mk "0xmid").hash =
        sampleL2Tx.messageID fastWalletEnv.provider fastWalletEnv.walletAddress ∧
      (∀ ack, sendTransactionMessage { fastWalletEnv with aggregatorAck := ack }
          ⟨none, none⟩ sampleL2Tx = (.ok ⟨"0xmid"⟩, ⟨none, some "0xpk"⟩))) ∧
    (midMR.result.incoming.messageID midEnv = (TxResponse.mk "0xmid").hash ∧
      midMR.txHash = (TxResponse.mk "0xmid").hash) := by
  have h := dual_path_submission_resolution fastWalletEnv ⟨none, none⟩ sampleL2Tx
    ⟨"0xmid"⟩ ⟨none, some "0xpk"⟩ midEnv midMR ⟨none⟩
  exact ⟨h.1 rfl rfl, h.2.1 rfl rfl⟩

/-- The literal 32-byte left-pad of 7. -/
def pad7 : String := "0x0000000000000000000000000000000000000000000000000000000000000007"

/-- A resolution environment for the direct path: the base-chain hash
`"0xl1direct"` has a receipt delivering an ETH deposit with
`messageNum = 7`, and the validator stores the matching raw result
under the padded id. -/
def directResolveEnv : ProviderEnv :=
  { sampleProviderEnv with
    calculateTransactionHash := fun _ _ _ _ _ _ => pad7,
    ethGetTransactionReceipt := fun h =>
      if h = "0xl1direct" then some ethDepositReceipt7 else none,
    clientGetMessageResult := fun h => if h = pad7 then some midRaw else none }

def directWalletEnv : WalletEnv :=
  { failingInboxWalletEnv with
    provider := directResolveEnv,
    sendL2Message := fun _ _ => .ok "0xl1direct" }

def directMR : MessageResult :=
  { result := sampleResult, txHash := pad7, nodeInfo := midRaw.nodeInfo }

/-- Counterexample for C1 as stated: a successful direct-path
submission returns a handle whose id is the base-chain transaction
hash; resolving it succeeds, but the MessageResult's recomputed message
id is the rollup-native id derived from the deposit event, not the
handle's id. -/
theorem dual_path_handle_id_cex :
    (sendTransactionMessage directWalletEnv ⟨some 1, none⟩ sampleL2Tx).1 =
      .ok ⟨"0xl1direct"⟩ ∧
    getMessageResult directResolveEnv "0xl1direct" = .ok (some directMR) ∧
    directMR.result.incoming.messageID directResolveEnv ≠ "0xl1direct" := by
  refine ⟨rfl, by rfl, by decide⟩

end ArbSdk
